import Mathlib

/-
  Verification of the reconciliation and rendering logic of the
  vk_order_independent_transparency sample.

  The definitions below are a shallow embedding of the C++ sources:
  - `State`, `State.coverageShading`, `State.recomputeAntialiasingSettings`
    embed the `State` struct of oit.h.
  - The dirty predicates and `updateRendererFromState` embed
    `Sample::updateRendererFromState` of main.cpp (lines 336-434); GPU calls
    are modelled as an emitted trace of `RendererOp` events.
  - `createFrameImages` embeds the resource-allocation decisions of
    `Sample::createFrameImages` of oit.cpp (lines 44-230).
  - `abufferBindingType` embeds the IMG_ABUFFER branch of
    `Sample::createDescriptorSets` of oit.cpp (lines 261-269).
  - `renderDraws` and `drawSceneObjects` embed the draw-call recording of
    `Sample::render` and `Sample::drawSceneObjects` of oitRender.cpp.

  The C++ float fields (scaleMin, scaleWidth) are only ever compared with
  `!=` by this code, never used arithmetically; they are modelled as `Nat`
  bit patterns with decidable equality (faithful for all non-NaN,
  non-negative-zero values, which is every value the GUI can produce).
  Machine integers are modelled as `Nat`, with an explicit `% 2 ^ 32`
  wherever the C++ performs 32-bit unsigned arithmetic that could wrap.
-/

namespace VkOit

/-! Constants from common.h. -/

def OIT_SIMPLE : Nat := 0
def OIT_LINKEDLIST : Nat := 1
def OIT_LOOP : Nat := 2
def OIT_LOOP64 : Nat := 3
def OIT_SPINLOCK : Nat := 4
def OIT_INTERLOCK : Nat := 5
def OIT_WEIGHTED : Nat := 6
def NUM_ALGORITHMS : Nat := 7

def AA_NONE : Nat := 0
def AA_MSAA_4X : Nat := 1
def AA_SSAA_4X : Nat := 2
def AA_SUPER_4X : Nat := 3
def AA_MSAA_8X : Nat := 4
def AA_SSAA_8X : Nat := 5
def NUM_AATYPES : Nat := 6

/-! The `State` struct of oit.h (lines 73-125). -/

structure State where
  algorithm : Nat
  oitLayers : Nat
  linkedListAllocatedPerElement : Nat
  percentTransparent : Nat
  tailBlend : Bool
  numObjects : Nat
  subdiv : Nat
  scaleMin : Nat
  scaleWidth : Nat
  aaType : Nat
  drawUI : Bool
  msaa : Nat
  sampleShading : Bool
  supersample : Nat
deriving DecidableEq, Repr

/-- `State::coverageShading` of oit.h: `(msaa > 1) && (!sampleShading)`. -/
def State.coverageShading (s : State) : Bool :=
  (decide (s.msaa > 1)) && (!s.sampleShading)

/-- `State::recomputeAntialiasingSettings` of oit.h (lines 93-124): sets
`sampleShading := false` and `supersample := 1`, then switches on `aaType` to
set `msaa` (and override the other two).  In the `default` case the C++
asserts and leaves `msaa` unchanged. -/
def State.recomputeAntialiasingSettings (s : State) : State :=
  if s.aaType = AA_NONE then
    { s with sampleShading := false, supersample := 1, msaa := 1 }
  else if s.aaType = AA_MSAA_4X then
    { s with sampleShading := false, supersample := 1, msaa := 4 }
  else if s.aaType = AA_SSAA_4X then
    { s with sampleShading := true, supersample := 1, msaa := 4 }
  else if s.aaType = AA_SUPER_4X then
    { s with sampleShading := false, supersample := 2, msaa := 1 }
  else if s.aaType = AA_MSAA_8X then
    { s with sampleShading := false, supersample := 1, msaa := 8 }
  else if s.aaType = AA_SSAA_8X then
    { s with sampleShading := true, supersample := 1, msaa := 8 }
  else
    { s with sampleShading := false, supersample := 1 }

/-! The fields of the `Sample` class that `updateRendererFromState` reads and
writes: `m_state`, `m_lastState`, the swapchain size, `m_lastSwapChainWidth`,
`m_lastSwapChainHeight`, `m_vsync` and `m_lastVsync` (oit.h lines 222-226). -/

structure Sample where
  state : State
  lastState : State
  swapChainWidth : Nat
  swapChainHeight : Nat
  lastSwapChainWidth : Nat
  lastSwapChainHeight : Nat
  vsync : Bool
  lastVsync : Bool
deriving DecidableEq, Repr

/-- The first statement of `updateRendererFromState` (main.cpp line 338):
`m_state.recomputeAntialiasingSettings()`.  All dirty predicates below are
evaluated on this updated sample. -/
def reconcileInput (smp : Sample) : Sample :=
  { smp with state := smp.state.recomputeAntialiasingSettings }

/-! The dirty predicates of `updateRendererFromState`, main.cpp lines
342-386, verbatim. -/

def swapchainSizeChanged (smp : Sample) (forceRebuildAll : Bool) : Bool :=
  (smp.swapChainWidth != smp.lastSwapChainWidth)
  || (smp.swapChainHeight != smp.lastSwapChainHeight)
  || forceRebuildAll

def vsyncChanged (smp : Sample) (forceRebuildAll : Bool) : Bool :=
  (smp.lastVsync != smp.vsync) || forceRebuildAll

def shadersNeedUpdate (smp : Sample) (forceRebuildAll : Bool) : Bool :=
  (smp.state.algorithm != smp.lastState.algorithm)
  || (smp.state.oitLayers != smp.lastState.oitLayers)
  || (smp.state.tailBlend != smp.lastState.tailBlend)
  || (smp.state.msaa != smp.lastState.msaa)
  || (smp.state.sampleShading != smp.lastState.sampleShading)
  || forceRebuildAll

def sceneNeedsReinit (smp : Sample) (forceRebuildAll : Bool) : Bool :=
  (smp.state.numObjects != smp.lastState.numObjects)
  || (smp.state.scaleWidth != smp.lastState.scaleWidth)
  || (smp.state.scaleMin != smp.lastState.scaleMin)
  || (smp.state.subdiv != smp.lastState.subdiv)
  || forceRebuildAll

def imagesNeedReinit (smp : Sample) (forceRebuildAll : Bool) : Bool :=
  (smp.state.supersample != smp.lastState.supersample)
  || (smp.state.msaa != smp.lastState.msaa)
  || (smp.state.algorithm != smp.lastState.algorithm)
  || (smp.state.sampleShading != smp.lastState.sampleShading)
  || (smp.state.oitLayers != smp.lastState.oitLayers)
  || ((smp.state.algorithm == OIT_LINKEDLIST)
      && (smp.state.linkedListAllocatedPerElement != smp.lastState.linkedListAllocatedPerElement))
  || swapchainSizeChanged smp forceRebuildAll
  || forceRebuildAll

def descriptorSetsNeedReinit (smp : Sample) (forceRebuildAll : Bool) : Bool :=
  ((smp.state.algorithm == OIT_LOOP64) && (smp.lastState.algorithm != OIT_LOOP64))
  || ((smp.state.algorithm != OIT_LOOP64) && (smp.lastState.algorithm == OIT_LOOP64))
  || forceRebuildAll

def framebuffersAndDescriptorsNeedReinit (smp : Sample) (forceRebuildAll : Bool) : Bool :=
  imagesNeedReinit smp forceRebuildAll
  || vsyncChanged smp forceRebuildAll
  || forceRebuildAll

def renderPassesNeedReinit (smp : Sample) (forceRebuildAll : Bool) : Bool :=
  (smp.state.msaa != smp.lastState.msaa) || forceRebuildAll

def pipelinesNeedReinit (smp : Sample) (forceRebuildAll : Bool) : Bool :=
  (smp.state.algorithm != smp.lastState.algorithm)
  || shadersNeedUpdate smp forceRebuildAll
  || imagesNeedReinit smp forceRebuildAll

def anythingChanged (smp : Sample) (forceRebuildAll : Bool) : Bool :=
  shadersNeedUpdate smp forceRebuildAll
  || sceneNeedsReinit smp forceRebuildAll
  || imagesNeedReinit smp forceRebuildAll
  || descriptorSetsNeedReinit smp forceRebuildAll
  || framebuffersAndDescriptorsNeedReinit smp forceRebuildAll
  || renderPassesNeedReinit smp forceRebuildAll

/-! The externally observable calls of `updateRendererFromState` and
`resizeCommands`, as trace events.  `storeLastState` marks the final
`m_lastState = m_state` (and last-swapchain/vsync) assignment block. -/

inductive RendererOp where
  | waitIdle
  | createUniformBuffers
  | initScene
  | createFrameImages
  | createDescriptorSets
  | createRenderPasses
  | updateAllDescriptorSets
  | createFramebuffers
  | createOrReloadShaderModules
  | createGraphicsPipelines
  | storeLastState
deriving DecidableEq, Repr

/-- `Sample::updateRendererFromState` of main.cpp (lines 336-434), returning
the updated sample together with the trace of calls it performs. -/
def updateRendererFromState (smp0 : Sample) (forceRebuildAll : Bool) :
    Sample × List RendererOp :=
  let smp := reconcileInput smp0
  let ops : List RendererOp :=
    if anythingChanged smp forceRebuildAll then
      [RendererOp.waitIdle]
      ++ (if sceneNeedsReinit smp forceRebuildAll then [RendererOp.initScene] else [])
      ++ (if imagesNeedReinit smp forceRebuildAll then [RendererOp.createFrameImages] else [])
      ++ (if descriptorSetsNeedReinit smp forceRebuildAll then [RendererOp.createDescriptorSets] else [])
      ++ (if renderPassesNeedReinit smp forceRebuildAll then [RendererOp.createRenderPasses] else [])
      ++ (if framebuffersAndDescriptorsNeedReinit smp forceRebuildAll then
            [RendererOp.updateAllDescriptorSets, RendererOp.createFramebuffers] else [])
      ++ (if shadersNeedUpdate smp forceRebuildAll then [RendererOp.createOrReloadShaderModules] else [])
      ++ (if pipelinesNeedReinit smp forceRebuildAll then [RendererOp.createGraphicsPipelines] else [])
    else []
  ({ smp with
      lastState := smp.state
      lastSwapChainWidth := smp.swapChainWidth
      lastSwapChainHeight := smp.swapChainHeight
      lastVsync := smp.vsync },
   ops ++ [RendererOp.storeLastState])

/-- `Sample::resizeCommands` of main.cpp (lines 327-334): waits for the
device to go idle, recreates the uniform buffers, then runs
`updateRendererFromState`. -/
def resizeCommands (smp : Sample) (forceRebuildAll : Bool) :
    Sample × List RendererOp :=
  let rest := updateRendererFromState smp forceRebuildAll
  (rest.1, RendererOp.waitIdle :: RendererOp.createUniformBuffers :: rest.2)

/-! Spec-side descriptions used to state the reconciliation claims. -/

/-- The rebuild steps in the order the spec requires: uniform buffers, scene,
frame images, descriptor sets, render passes, descriptor writes plus
framebuffers, shaders, pipelines. -/
def rebuildOrder : List RendererOp :=
  [RendererOp.createUniformBuffers, RendererOp.initScene,
   RendererOp.createFrameImages, RendererOp.createDescriptorSets,
   RendererOp.createRenderPasses, RendererOp.updateAllDescriptorSets,
   RendererOp.createFramebuffers, RendererOp.createOrReloadShaderModules,
   RendererOp.createGraphicsPipelines]

/-- Whether a trace event is a rebuild step (as opposed to the idle wait or
the final state store). -/
def isRebuildStep : RendererOp → Bool
  | RendererOp.waitIdle => false
  | RendererOp.storeLastState => false
  | _ => true

/-- The dirty predicate governing each rebuild step of
`updateRendererFromState`, evaluated on the pre-mutation pair. -/
def opNeeded (smp : Sample) (forceRebuildAll : Bool) : RendererOp → Bool
  | RendererOp.initScene => sceneNeedsReinit smp forceRebuildAll
  | RendererOp.createFrameImages => imagesNeedReinit smp forceRebuildAll
  | RendererOp.createDescriptorSets => descriptorSetsNeedReinit smp forceRebuildAll
  | RendererOp.createRenderPasses => renderPassesNeedReinit smp forceRebuildAll
  | RendererOp.updateAllDescriptorSets => framebuffersAndDescriptorsNeedReinit smp forceRebuildAll
  | RendererOp.createFramebuffers => framebuffersAndDescriptorsNeedReinit smp forceRebuildAll
  | RendererOp.createOrReloadShaderModules => shadersNeedUpdate smp forceRebuildAll
  | RendererOp.createGraphicsPipelines => pipelinesNeedReinit smp forceRebuildAll
  | _ => false

/-! Helper lemmas about `recomputeAntialiasingSettings`. -/

theorem recompute_closed (s : State) :
    s.recomputeAntialiasingSettings =
      { s with
          msaa :=
            if s.aaType = AA_NONE then 1
            else if s.aaType = AA_MSAA_4X then 4
            else if s.aaType = AA_SSAA_4X then 4
            else if s.aaType = AA_SUPER_4X then 1
            else if s.aaType = AA_MSAA_8X then 8
            else if s.aaType = AA_SSAA_8X then 8
            else s.msaa
          sampleShading :=
            if s.aaType = AA_NONE then false
            else if s.aaType = AA_MSAA_4X then false
            else if s.aaType = AA_SSAA_4X then true
            else if s.aaType = AA_SUPER_4X then false
            else if s.aaType = AA_MSAA_8X then false
            else if s.aaType = AA_SSAA_8X then true
            else false
          supersample :=
            if s.aaType = AA_NONE then 1
            else if s.aaType = AA_MSAA_4X then 1
            else if s.aaType = AA_SSAA_4X then 1
            else if s.aaType = AA_SUPER_4X then 2
            else if s.aaType = AA_MSAA_8X then 1
            else if s.aaType = AA_SSAA_8X then 1
            else 1 } := by
  unfold State.recomputeAntialiasingSettings
  split_ifs <;> rfl

theorem recompute_idem (s : State) :
    s.recomputeAntialiasingSettings.recomputeAntialiasingSettings
      = s.recomputeAntialiasingSettings := by
  by_cases h0 : s.aaType = AA_NONE <;>
    by_cases h1 : s.aaType = AA_MSAA_4X <;>
    by_cases h2 : s.aaType = AA_SSAA_4X <;>
    by_cases h3 : s.aaType = AA_SUPER_4X <;>
    by_cases h4 : s.aaType = AA_MSAA_8X <;>
    by_cases h5 : s.aaType = AA_SSAA_8X <;>
    simp_all [State.recomputeAntialiasingSettings, AA_NONE, AA_MSAA_4X,
      AA_SSAA_4X, AA_SUPER_4X, AA_MSAA_8X, AA_SSAA_8X]

theorem recompute_scaleMin (s : State) (x : Nat) :
    ({ s with scaleMin := x } : State).recomputeAntialiasingSettings
      = { s.recomputeAntialiasingSettings with scaleMin := x } := by
  rw [recompute_closed, recompute_closed]

theorem reconcileInput_swapChainWidth (smp : Sample) :
    (reconcileInput smp).swapChainWidth = smp.swapChainWidth := rfl

theorem reconcileInput_swapChainHeight (smp : Sample) :
    (reconcileInput smp).swapChainHeight = smp.swapChainHeight := rfl

theorem reconcileInput_vsync (smp : Sample) :
    (reconcileInput smp).vsync = smp.vsync := rfl

/-- If the applied state equals the (AA-consistent) requested state and the
swapchain size and vsync flag are unchanged, `updateRendererFromState` leaves
the sample unchanged and performs no rebuild step. -/
theorem reconcile_noop (t : Sample)
    (hre : t.state.recomputeAntialiasingSettings = t.state)
    (hst : t.lastState = t.state)
    (hw : t.lastSwapChainWidth = t.swapChainWidth)
    (hh : t.lastSwapChainHeight = t.swapChainHeight)
    (hv : t.lastVsync = t.vsync) :
    updateRendererFromState t false = (t, [RendererOp.storeLastState]) := by
  obtain ⟨st, lst, w, h, lw, lh, v, lv⟩ := t
  simp only at hre hst hw hh hv
  subst hst hw hh hv
  simp [updateRendererFromState, reconcileInput, hre, anythingChanged,
    shadersNeedUpdate, sceneNeedsReinit, imagesNeedReinit,
    descriptorSetsNeedReinit, framebuffersAndDescriptorsNeedReinit,
    renderPassesNeedReinit, pipelinesNeedReinit, swapchainSizeChanged,
    vsyncChanged, Bool.and_not_self, Bool.not_and_self]

/-- C3: The `imagesNeedReinit` predicate of `updateRendererFromState` is true
exactly when supersample, msaa, algorithm, sample-shading, or the OIT layer
count differs between `m_state` and `m_lastState`; or the algorithm is
OIT_LINKEDLIST and `linkedListAllocatedPerElement` differs; or the swapchain
size changed; or `forceRebuildAll` is set. -/
theorem imagesNeedReinit_characterization (smp : Sample) (forceRebuildAll : Bool) :
    imagesNeedReinit smp forceRebuildAll = true ↔
      (smp.state.supersample ≠ smp.lastState.supersample
       ∨ smp.state.msaa ≠ smp.lastState.msaa
       ∨ smp.state.algorithm ≠ smp.lastState.algorithm
       ∨ smp.state.sampleShading ≠ smp.lastState.sampleShading
       ∨ smp.state.oitLayers ≠ smp.lastState.oitLayers
       ∨ (smp.state.algorithm = OIT_LINKEDLIST
          ∧ smp.state.linkedListAllocatedPerElement
              ≠ smp.lastState.linkedListAllocatedPerElement)
       ∨ (smp.swapChainWidth ≠ smp.lastSwapChainWidth
          ∨ smp.swapChainHeight ≠ smp.lastSwapChainHeight)
       ∨ forceRebuildAll = true) := by
  simp only [imagesNeedReinit, swapchainSizeChanged, Bool.or_eq_true,
    bne_iff_ne, ne_eq, Bool.and_eq_true, beq_iff_eq]
  tauto

/-! Spec-side table for the antialiasing derivation (spec section 8,
"AA derivation"). -/

def derivedMsaa (aaType : Nat) : Nat :=
  if aaType = AA_NONE then 1
  else if aaType = AA_MSAA_4X then 4
  else if aaType = AA_SSAA_4X then 4
  else if aaType = AA_SUPER_4X then 1
  else if aaType = AA_MSAA_8X then 8
  else if aaType = AA_SSAA_8X then 8
  else 0

def derivedSampleShading (aaType : Nat) : Bool :=
  if aaType = AA_SSAA_4X then true
  else if aaType = AA_SSAA_8X then true
  else false

def derivedSupersample (aaType : Nat) : Nat :=
  if aaType = AA_SUPER_4X then 2 else 1

/-- C8: `recomputeAntialiasingSettings` is a pure total function of `aaType`
over all 6 enum values: it writes only the three derived fields
(msaa, sampleShading, supersample), each a function of `aaType` alone, and in
particular maps AA_NONE to (1, false, 1), AA_SSAA_4X to (4, true, 1), and
AA_SUPER_4X to (1, false, 2). -/
theorem recomputeAntialiasingSettings_pure (s : State)
    (h : s.aaType < NUM_AATYPES) :
    s.recomputeAntialiasingSettings =
      { s with
          msaa := derivedMsaa s.aaType
          sampleShading := derivedSampleShading s.aaType
          supersample := derivedSupersample s.aaType }
    ∧ (derivedMsaa AA_NONE = 1 ∧ derivedSampleShading AA_NONE = false
        ∧ derivedSupersample AA_NONE = 1)
    ∧ (derivedMsaa AA_SSAA_4X = 4 ∧ derivedSampleShading AA_SSAA_4X = true
        ∧ derivedSupersample AA_SSAA_4X = 1)
    ∧ (derivedMsaa AA_SUPER_4X = 1 ∧ derivedSampleShading AA_SUPER_4X = false
        ∧ derivedSupersample AA_SUPER_4X = 2) := by
  refine ⟨?_, by decide, by decide, by decide⟩
  rw [recompute_closed]
  unfold derivedMsaa derivedSampleShading derivedSupersample
  simp only [NUM_AATYPES, AA_NONE, AA_MSAA_4X, AA_SSAA_4X, AA_SUPER_4X,
    AA_MSAA_8X, AA_SSAA_8X] at *
  split_ifs <;> first | rfl | omega

/-- Witness for C8 at a concrete state with aaType = AA_SSAA_4X. -/
theorem recomputeAntialiasingSettings_pure_witness :
    (2 : Nat) < NUM_AATYPES ∧
      State.recomputeAntialiasingSettings
          { algorithm := 4, oitLayers := 8, linkedListAllocatedPerElement := 10,
            percentTransparent := 100, tailBlend := true, numObjects := 1024,
            subdiv := 16, scaleMin := 1, scaleWidth := 9, aaType := 2,
            drawUI := true, msaa := 1, sampleShading := false, supersample := 1 } =
        { algorithm := 4, oitLayers := 8, linkedListAllocatedPerElement := 10,
          percentTransparent := 100, tailBlend := true, numObjects := 1024,
          subdiv := 16, scaleMin := 1, scaleWidth := 9, aaType := 2,
          drawUI := true, msaa := derivedMsaa 2,
          sampleShading := derivedSampleShading 2,
          supersample := derivedSupersample 2 } := by
  refine ⟨by decide, ?_⟩
  exact (recomputeAntialiasingSettings_pure
    { algorithm := 4, oitLayers := 8, linkedListAllocatedPerElement := 10,
      percentTransparent := 100, tailBlend := true, numObjects := 1024,
      subdiv := 16, scaleMin := 1, scaleWidth := 9, aaType := 2,
      drawUI := true, msaa := 1, sampleShading := false, supersample := 1 }
    (by decide)).1

/-- C1: Reconciliation is idempotent: after a call to
`updateRendererFromState`, a second call with `forceRebuildAll = false` and
with `m_state`, the swapchain size and the vsync flag unchanged finds every
dirty predicate false and performs no GPU object creation or destruction (its
trace holds no `initScene`, `createFrameImages`, `createDescriptorSets`,
`createRenderPasses`, `updateAllDescriptorSets`, `createFramebuffers`,
`createOrReloadShaderModules`, or `createGraphicsPipelines` call). -/
theorem updateRendererFromState_idempotent (smp : Sample) (forceRebuildAll : Bool) :
    updateRendererFromState (updateRendererFromState smp forceRebuildAll).1 false
      = ((updateRendererFromState smp forceRebuildAll).1, [RendererOp.storeLastState])
    ∧ shadersNeedUpdate (reconcileInput (updateRendererFromState smp forceRebuildAll).1) false = false
    ∧ sceneNeedsReinit (reconcileInput (updateRendererFromState smp forceRebuildAll).1) false = false
    ∧ imagesNeedReinit (reconcileInput (updateRendererFromState smp forceRebuildAll).1) false = false
    ∧ descriptorSetsNeedReinit (reconcileInput (updateRendererFromState smp forceRebuildAll).1) false = false
    ∧ framebuffersAndDescriptorsNeedReinit (reconcileInput (updateRendererFromState smp forceRebuildAll).1) false = false
    ∧ renderPassesNeedReinit (reconcileInput (updateRendererFromState smp forceRebuildAll).1) false = false
    ∧ pipelinesNeedReinit (reconcileInput (updateRendererFromState smp forceRebuildAll).1) false = false
    ∧ swapchainSizeChanged (reconcileInput (updateRendererFromState smp forceRebuildAll).1) false = false
    ∧ vsyncChanged (reconcileInput (updateRendererFromState smp forceRebuildAll).1) false = false := by
  obtain ⟨st0, lst0, w, h, lw, lh, v, lv⟩ := smp
  have hfix : (updateRendererFromState ⟨st0, lst0, w, h, lw, lh, v, lv⟩ forceRebuildAll).1
      = ⟨st0.recomputeAntialiasingSettings, st0.recomputeAntialiasingSettings, w, h, w, h, v, v⟩ := rfl
  rw [hfix]
  have hrec : reconcileInput
      ⟨st0.recomputeAntialiasingSettings, st0.recomputeAntialiasingSettings, w, h, w, h, v, v⟩
      = ⟨st0.recomputeAntialiasingSettings, st0.recomputeAntialiasingSettings, w, h, w, h, v, v⟩ := by
    simp [reconcileInput, recompute_idem]
  refine ⟨reconcile_noop _ (recompute_idem st0) rfl rfl rfl rfl, ?_⟩
  rw [hrec]
  simp [shadersNeedUpdate, sceneNeedsReinit, imagesNeedReinit,
    descriptorSetsNeedReinit, framebuffersAndDescriptorsNeedReinit,
    renderPassesNeedReinit, pipelinesNeedReinit, swapchainSizeChanged,
    vsyncChanged, Bool.and_not_self, Bool.not_and_self]

/-- C2: In every call to `updateRendererFromState`, the dirty predicates are
computed from the pre-mutation pair (the recomputed `m_state` and the stored
`m_lastState`, swapchain size and vsync flag): the emitted trace is exactly
the canonical rebuild sequence filtered by those predicates, run strictly in
the order scene, frame images, descriptor sets, render passes, descriptor
writes plus framebuffers, shaders, pipelines, and `m_lastState` is
overwritten only after all rebuild steps (the trailing `storeLastState`).
Through `resizeCommands`, the uniform-buffer rebuild precedes all of these,
so the full rebuild trace is a sublist of the canonical order. -/
theorem updateRendererFromState_trace_order (smp : Sample) (forceRebuildAll : Bool) :
    updateRendererFromState smp forceRebuildAll =
      ({ reconcileInput smp with
          lastState := (reconcileInput smp).state
          lastSwapChainWidth := smp.swapChainWidth
          lastSwapChainHeight := smp.swapChainHeight
          lastVsync := smp.vsync },
       (if anythingChanged (reconcileInput smp) forceRebuildAll then
           RendererOp.waitIdle ::
             List.filter (opNeeded (reconcileInput smp) forceRebuildAll) rebuildOrder
         else [])
         ++ [RendererOp.storeLastState])
    ∧ List.Sublist
        (List.filter isRebuildStep (resizeCommands smp forceRebuildAll).2)
        rebuildOrder := by
  have hmain : updateRendererFromState smp forceRebuildAll =
      ({ reconcileInput smp with
          lastState := (reconcileInput smp).state
          lastSwapChainWidth := smp.swapChainWidth
          lastSwapChainHeight := smp.swapChainHeight
          lastVsync := smp.vsync },
       (if anythingChanged (reconcileInput smp) forceRebuildAll then
           RendererOp.waitIdle ::
             List.filter (opNeeded (reconcileInput smp) forceRebuildAll) rebuildOrder
         else [])
         ++ [RendererOp.storeLastState]) := by
    unfold updateRendererFromState
    cases h1 : sceneNeedsReinit (reconcileInput smp) forceRebuildAll <;>
      cases h2 : imagesNeedReinit (reconcileInput smp) forceRebuildAll <;>
      cases h3 : descriptorSetsNeedReinit (reconcileInput smp) forceRebuildAll <;>
      cases h4 : renderPassesNeedReinit (reconcileInput smp) forceRebuildAll <;>
      cases h5 : framebuffersAndDescriptorsNeedReinit (reconcileInput smp) forceRebuildAll <;>
      cases h6 : shadersNeedUpdate (reconcileInput smp) forceRebuildAll <;>
      cases h7 : pipelinesNeedReinit (reconcileInput smp) forceRebuildAll <;>
      simp [anythingChanged, h1, h2, h3, h4, h5, h6, h7, rebuildOrder, opNeeded,
        reconcileInput_swapChainWidth, reconcileInput_swapChainHeight,
        reconcileInput_vsync]
  refine ⟨hmain, ?_⟩
  have hresize : (resizeCommands smp forceRebuildAll).2
      = RendererOp.waitIdle :: RendererOp.createUniformBuffers ::
          (updateRendererFromState smp forceRebuildAll).2 := rfl
  rw [hresize, hmain]
  cases h1 : sceneNeedsReinit (reconcileInput smp) forceRebuildAll <;>
    cases h2 : imagesNeedReinit (reconcileInput smp) forceRebuildAll <;>
    cases h3 : descriptorSetsNeedReinit (reconcileInput smp) forceRebuildAll <;>
    cases h4 : renderPassesNeedReinit (reconcileInput smp) forceRebuildAll <;>
    cases h5 : framebuffersAndDescriptorsNeedReinit (reconcileInput smp) forceRebuildAll <;>
    cases h6 : shadersNeedUpdate (reconcileInput smp) forceRebuildAll <;>
    cases h7 : pipelinesNeedReinit (reconcileInput smp) forceRebuildAll <;>
    simp [anythingChanged, h1, h2, h3, h4, h5, h6, h7, rebuildOrder, opNeeded,
      isRebuildStep, List.filter] <;>
    decide

/-- C9: If the requested state differs from the applied state only in
`scaleMin` (the applied state being AA-consistent, as every stored
`m_lastState` is), with the swapchain size and vsync flag unchanged and
`forceRebuildAll = false`, then `updateRendererFromState` regenerates only
the scene geometry: its trace is wait-idle, `initScene`, store-state, and the
frame-image, descriptor-set, render-pass, framebuffer, shader and pipeline
predicates are all false. -/
theorem scaleMin_change_only_rebuilds_scene (smp : Sample) (x : Nat)
    (happ : smp.lastState.recomputeAntialiasingSettings = smp.lastState)
    (hreq : smp.state = { smp.lastState with scaleMin := x })
    (hx : x ≠ smp.lastState.scaleMin)
    (hw : smp.swapChainWidth = smp.lastSwapChainWidth)
    (hh : smp.swapChainHeight = smp.lastSwapChainHeight)
    (hv : smp.vsync = smp.lastVsync) :
    (updateRendererFromState smp false).2
      = [RendererOp.waitIdle, RendererOp.initScene, RendererOp.storeLastState]
    ∧ imagesNeedReinit (reconcileInput smp) false = false
    ∧ descriptorSetsNeedReinit (reconcileInput smp) false = false
    ∧ renderPassesNeedReinit (reconcileInput smp) false = false
    ∧ framebuffersAndDescriptorsNeedReinit (reconcileInput smp) false = false
    ∧ shadersNeedUpdate (reconcileInput smp) false = false
    ∧ pipelinesNeedReinit (reconcileInput smp) false = false := by
  obtain ⟨st, lst, w, h, lw, lh, v, lv⟩ := smp
  simp only at happ hreq hx hw hh hv
  subst hreq hw hh hv
  have hst : (reconcileInput ⟨{ lst with scaleMin := x }, lst, w, h, w, h, v, v⟩)
      = ⟨{ lst with scaleMin := x }, lst, w, h, w, h, v, v⟩ := by
    simp [reconcileInput, recompute_scaleMin, happ]
  rw [hst]
  have hpreds : imagesNeedReinit ⟨{ lst with scaleMin := x }, lst, w, h, w, h, v, v⟩ false = false
      ∧ descriptorSetsNeedReinit ⟨{ lst with scaleMin := x }, lst, w, h, w, h, v, v⟩ false = false
      ∧ renderPassesNeedReinit ⟨{ lst with scaleMin := x }, lst, w, h, w, h, v, v⟩ false = false
      ∧ framebuffersAndDescriptorsNeedReinit ⟨{ lst with scaleMin := x }, lst, w, h, w, h, v, v⟩ false = false
      ∧ shadersNeedUpdate ⟨{ lst with scaleMin := x }, lst, w, h, w, h, v, v⟩ false = false
      ∧ pipelinesNeedReinit ⟨{ lst with scaleMin := x }, lst, w, h, w, h, v, v⟩ false = false := by
    simp [imagesNeedReinit, descriptorSetsNeedReinit, renderPassesNeedReinit,
      framebuffersAndDescriptorsNeedReinit, shadersNeedUpdate,
      pipelinesNeedReinit, swapchainSizeChanged, vsyncChanged,
      Bool.and_not_self, Bool.not_and_self]
  obtain ⟨hi, hd, hr, hf, hs, hp⟩ := hpreds
  refine ⟨?_, hi, hd, hr, hf, hs, hp⟩
  unfold updateRendererFromState
  rw [hst]
  have hscene : sceneNeedsReinit ⟨{ lst with scaleMin := x }, lst, w, h, w, h, v, v⟩ false = true := by
    simp [sceneNeedsReinit, bne_iff_ne, hx]
  simp [anythingChanged, hscene, hi, hd, hr, hf, hs, hp]

/-- Witness for C9 at a concrete sample whose requested state changes only
`scaleMin` (1 to 2). -/
theorem scaleMin_change_only_rebuilds_scene_witness :
    (let lst : State :=
      { algorithm := 4, oitLayers := 8, linkedListAllocatedPerElement := 10,
        percentTransparent := 100, tailBlend := true, numObjects := 1024,
        subdiv := 16, scaleMin := 1, scaleWidth := 9, aaType := 0,
        drawUI := true, msaa := 1, sampleShading := false, supersample := 1 }
     let smp : Sample :=
      { state := { lst with scaleMin := 2 }, lastState := lst,
        swapChainWidth := 1200, swapChainHeight := 1024,
        lastSwapChainWidth := 1200, lastSwapChainHeight := 1024,
        vsync := false, lastVsync := false }
     (updateRendererFromState smp false).2
        = [RendererOp.waitIdle, RendererOp.initScene, RendererOp.storeLastState]
      ∧ imagesNeedReinit (reconcileInput smp) false = false
      ∧ descriptorSetsNeedReinit (reconcileInput smp) false = false
      ∧ renderPassesNeedReinit (reconcileInput smp) false = false
      ∧ framebuffersAndDescriptorsNeedReinit (reconcileInput smp) false = false
      ∧ shadersNeedUpdate (reconcileInput smp) false = false
      ∧ pipelinesNeedReinit (reconcileInput smp) false = false) :=
  scaleMin_change_only_rebuilds_scene _ 2 (by decide) (by decide) (by decide)
    (by decide) (by decide) (by decide)

/-! Frame-image resource decisions of `Sample::createFrameImages`
(oit.cpp lines 44-230). -/

/-- The two ways the A-buffer can be created and bound: as a storage buffer
(`VK_BUFFER_USAGE_STORAGE_BUFFER_BIT` and `VK_DESCRIPTOR_TYPE_STORAGE_BUFFER`)
or as a storage texel buffer. -/
inductive ABufferKind where
  | storageBuffer
  | storageTexelBuffer
deriving DecidableEq, Repr

/-- The per-algorithm allocation decisions of the `switch(m_state.algorithm)`
in `createFrameImages` (oit.cpp lines 107-153).  Stride bytes use
`sizeof(uvec4) = 16`, `sizeof(uvec2) = 8`, `sizeof(uint) = 4`,
`sizeof(uint64_t) = 8`.  The OIT_INTERLOCK and OIT_SPINLOCK cases share one
switch case with `allocAuxSpin = (algorithm == OIT_SPINLOCK)`. -/
structure AllocPlan where
  allocAux : Bool
  allocAuxSpin : Bool
  allocAuxDepth : Bool
  allocCounter : Bool
  aBufferElementsPerSample : Nat
  aBufferStrideBytes : Nat
deriving DecidableEq, Repr

def allocPlan (st : State) : AllocPlan :=
  if st.algorithm = OIT_SIMPLE then
    { allocAux := true, allocAuxSpin := false, allocAuxDepth := false,
      allocCounter := false, aBufferElementsPerSample := st.oitLayers,
      aBufferStrideBytes := if st.coverageShading then 16 else 8 }
  else if st.algorithm = OIT_INTERLOCK ∨ st.algorithm = OIT_SPINLOCK then
    { allocAux := true, allocAuxSpin := st.algorithm == OIT_SPINLOCK,
      allocAuxDepth := true, allocCounter := false,
      aBufferElementsPerSample := st.oitLayers,
      aBufferStrideBytes := if st.coverageShading then 16 else 8 }
  else if st.algorithm = OIT_LINKEDLIST then
    { allocAux := true, allocAuxSpin := false, allocAuxDepth := false,
      allocCounter := true,
      aBufferElementsPerSample := st.linkedListAllocatedPerElement,
      aBufferStrideBytes := 16 }
  else if st.algorithm = OIT_LOOP then
    { allocAux := true, allocAuxSpin := false, allocAuxDepth := false,
      allocCounter := false, aBufferElementsPerSample := st.oitLayers * 2,
      aBufferStrideBytes := 4 }
  else if st.algorithm = OIT_LOOP64 then
    { allocAux := true, allocAuxSpin := false, allocAuxDepth := false,
      allocCounter := false, aBufferElementsPerSample := st.oitLayers,
      aBufferStrideBytes := 8 }
  else
    { allocAux := false, allocAuxSpin := false, allocAuxDepth := false,
      allocCounter := false, aBufferElementsPerSample := 1,
      aBufferStrideBytes := 0 }

/-- Which algorithm-dependent auxiliary resources a `createFrameImages` call
creates (the color, depth and downsample targets are always created and are
not listed). -/
structure FrameResources where
  abuffer : Option ABufferKind
  aux : Bool
  auxSpin : Bool
  auxDepth : Bool
  counter : Bool
  weightedColor : Bool
  weightedReveal : Bool
deriving DecidableEq, Repr

/-- `Sample::createFrameImages` (oit.cpp lines 44-230): computes the buffer
size from the supersampled swapchain size, the per-algorithm element count
and stride (element count multiplied by `msaa` under sample shading), creates
the A-buffer only when the size is nonzero — with storage-buffer usage for
OIT_LOOP64 and storage-texel-buffer usage otherwise — creates the aux images
according to the allocation flags, and creates the two weighted targets only
for OIT_WEIGHTED. -/
def createFrameImages (st : State) (swapchainWidth swapchainHeight : Nat) :
    FrameResources :=
  let bufferWidth := swapchainWidth * st.supersample
  let bufferHeight := swapchainHeight * st.supersample
  let plan := allocPlan st
  let elems := if st.sampleShading then plan.aBufferElementsPerSample * st.msaa
               else plan.aBufferElementsPerSample
  let aBufferSize := bufferWidth * bufferHeight * elems * plan.aBufferStrideBytes
  { abuffer :=
      if aBufferSize ≠ 0 then
        some (if st.algorithm = OIT_LOOP64 then ABufferKind.storageBuffer
              else ABufferKind.storageTexelBuffer)
      else none
    aux := plan.allocAux
    auxSpin := plan.allocAuxSpin
    auxDepth := plan.allocAuxDepth
    counter := plan.allocCounter
    weightedColor := st.algorithm == OIT_WEIGHTED
    weightedReveal := st.algorithm == OIT_WEIGHTED }

/-- The spec's aux-resource table (spec section 4.2 / section 8,
"Aux-resource exclusivity"), stated per algorithm. -/
def specAuxTable (algorithm : Nat) : FrameResources :=
  if algorithm = OIT_SIMPLE then
    { abuffer := some ABufferKind.storageTexelBuffer, aux := true,
      auxSpin := false, auxDepth := false, counter := false,
      weightedColor := false, weightedReveal := false }
  else if algorithm = OIT_SPINLOCK then
    { abuffer := some ABufferKind.storageTexelBuffer, aux := true,
      auxSpin := true, auxDepth := true, counter := false,
      weightedColor := false, weightedReveal := false }
  else if algorithm = OIT_INTERLOCK then
    { abuffer := some ABufferKind.storageTexelBuffer, aux := true,
      auxSpin := false, auxDepth := true, counter := false,
      weightedColor := false, weightedReveal := false }
  else if algorithm = OIT_LINKEDLIST then
    { abuffer := some ABufferKind.storageTexelBuffer, aux := true,
      auxSpin := false, auxDepth := false, counter := true,
      weightedColor := false, weightedReveal := false }
  else if algorithm = OIT_LOOP then
    { abuffer := some ABufferKind.storageTexelBuffer, aux := true,
      auxSpin := false, auxDepth := false, counter := false,
      weightedColor := false, weightedReveal := false }
  else if algorithm = OIT_LOOP64 then
    { abuffer := some ABufferKind.storageBuffer, aux := true,
      auxSpin := false, auxDepth := false, counter := false,
      weightedColor := false, weightedReveal := false }
  else if algorithm = OIT_WEIGHTED then
    { abuffer := none, aux := false, auxSpin := false, auxDepth := false,
      counter := false, weightedColor := true, weightedReveal := true }
  else
    { abuffer := none, aux := false, auxSpin := false, auxDepth := false,
      counter := false, weightedColor := false, weightedReveal := false }

/-- C5: For each of the 7 algorithm values, the set of auxiliary resources
created by `createFrameImages` (with positive image dimensions, supersample
factor, layer counts and sample count, as after any forced rebuild) is
exactly a deterministic function of the algorithm — matching the spec table:
OIT_SIMPLE gets aux plus A-buffer; OIT_SPINLOCK aux, aux-spin, aux-depth and
A-buffer; OIT_INTERLOCK aux, aux-depth and A-buffer; OIT_LINKEDLIST aux, the
1x1 counter image and the pooled A-buffer and nothing named spinlock or
weighted; OIT_LOOP and OIT_LOOP64 aux plus A-buffer; OIT_WEIGHTED only the
two weighted targets and no A-buffer. -/
theorem createFrameImages_aux_exclusivity (st : State) (w h : Nat)
    (hw : 0 < w) (hh : 0 < h) (hsu : 0 < st.supersample)
    (hlay : 0 < st.oitLayers) (hll : 0 < st.linkedListAllocatedPerElement)
    (hms : 0 < st.msaa) :
    createFrameImages st w h = specAuxTable st.algorithm := by
  have hw' : w ≠ 0 := by omega
  have hh' : h ≠ 0 := by omega
  have hsu' : st.supersample ≠ 0 := by omega
  have hlay' : st.oitLayers ≠ 0 := by omega
  have hll' : st.linkedListAllocatedPerElement ≠ 0 := by omega
  have hms' : st.msaa ≠ 0 := by omega
  by_cases h0 : st.algorithm = OIT_SIMPLE
  · cases hss : st.sampleShading <;> cases hcv : st.coverageShading <;>
      simp_all [createFrameImages, allocPlan, specAuxTable, OIT_SIMPLE,
        OIT_LINKEDLIST, OIT_LOOP, OIT_LOOP64, OIT_SPINLOCK, OIT_INTERLOCK,
        OIT_WEIGHTED, Nat.mul_eq_zero]
  by_cases h1 : st.algorithm = OIT_INTERLOCK
  · cases hss : st.sampleShading <;> cases hcv : st.coverageShading <;>
      simp_all [createFrameImages, allocPlan, specAuxTable, OIT_SIMPLE,
        OIT_LINKEDLIST, OIT_LOOP, OIT_LOOP64, OIT_SPINLOCK, OIT_INTERLOCK,
        OIT_WEIGHTED, Nat.mul_eq_zero]
  by_cases h2 : st.algorithm = OIT_SPINLOCK
  · cases hss : st.sampleShading <;> cases hcv : st.coverageShading <;>
      simp_all [createFrameImages, allocPlan, specAuxTable, OIT_SIMPLE,
        OIT_LINKEDLIST, OIT_LOOP, OIT_LOOP64, OIT_SPINLOCK, OIT_INTERLOCK,
        OIT_WEIGHTED, Nat.mul_eq_zero]
  by_cases h3 : st.algorithm = OIT_LINKEDLIST
  · cases hss : st.sampleShading <;>
      simp_all [createFrameImages, allocPlan, specAuxTable, OIT_SIMPLE,
        OIT_LINKEDLIST, OIT_LOOP, OIT_LOOP64, OIT_SPINLOCK, OIT_INTERLOCK,
        OIT_WEIGHTED, Nat.mul_eq_zero]
  by_cases h4 : st.algorithm = OIT_LOOP
  · cases hss : st.sampleShading <;>
      simp_all [createFrameImages, allocPlan, specAuxTable, OIT_SIMPLE,
        OIT_LINKEDLIST, OIT_LOOP, OIT_LOOP64, OIT_SPINLOCK, OIT_INTERLOCK,
        OIT_WEIGHTED, Nat.mul_eq_zero]
  by_cases h5 : st.algorithm = OIT_LOOP64
  · cases hss : st.sampleShading <;>
      simp_all [createFrameImages, allocPlan, specAuxTable, OIT_SIMPLE,
        OIT_LINKEDLIST, OIT_LOOP, OIT_LOOP64, OIT_SPINLOCK, OIT_INTERLOCK,
        OIT_WEIGHTED, Nat.mul_eq_zero]
  by_cases h6 : st.algorithm = OIT_WEIGHTED
  · simp_all [createFrameImages, allocPlan, specAuxTable, OIT_SIMPLE,
      OIT_LINKEDLIST, OIT_LOOP, OIT_LOOP64, OIT_SPINLOCK, OIT_INTERLOCK,
      OIT_WEIGHTED, Nat.mul_eq_zero]
  simp_all [createFrameImages, allocPlan, specAuxTable, OIT_SIMPLE,
    OIT_LINKEDLIST, OIT_LOOP, OIT_LOOP64, OIT_SPINLOCK, OIT_INTERLOCK,
    OIT_WEIGHTED, Nat.mul_eq_zero]

/-- Witness for C5 at a concrete linked-list state and 1200 x 1024 surface. -/
theorem createFrameImages_aux_exclusivity_witness :
    ((0 : Nat) < 1200 ∧ (0 : Nat) < 1024) ∧
      createFrameImages
          { algorithm := 1, oitLayers := 8, linkedListAllocatedPerElement := 10,
            percentTransparent := 100, tailBlend := true, numObjects := 1024,
            subdiv := 16, scaleMin := 1, scaleWidth := 9, aaType := 0,
            drawUI := true, msaa := 1, sampleShading := false, supersample := 1 }
          1200 1024
        = specAuxTable 1 :=
  ⟨⟨by decide, by decide⟩,
   createFrameImages_aux_exclusivity
    { algorithm := 1, oitLayers := 8, linkedListAllocatedPerElement := 10,
      percentTransparent := 100, tailBlend := true, numObjects := 1024,
      subdiv := 16, scaleMin := 1, scaleWidth := 9, aaType := 0,
      drawUI := true, msaa := 1, sampleShading := false, supersample := 1 }
    1200 1024 (by decide) (by decide) (by decide) (by decide) (by decide)
    (by decide)⟩

/-- The IMG_ABUFFER binding type declared by `Sample::createDescriptorSets`
(oit.cpp lines 261-269): `VK_DESCRIPTOR_TYPE_STORAGE_BUFFER` for OIT_LOOP64,
`VK_DESCRIPTOR_TYPE_STORAGE_TEXEL_BUFFER` for every other algorithm. -/
def abufferBindingType (st : State) : ABufferKind :=
  if st.algorithm = OIT_LOOP64 then ABufferKind.storageBuffer
  else ABufferKind.storageTexelBuffer

/-- The A-buffer-typing aspects of the GPU resources owned by the sample:
the usage the A-buffer was last created with (`none` when the current
configuration creates no A-buffer) and the descriptor layout's IMG_ABUFFER
binding type. -/
structure GpuResources where
  abufferUsage : Option ABufferKind
  abufferBinding : ABufferKind
deriving DecidableEq, Repr

/-- The effect of one `updateRendererFromState` call on the A-buffer-typing
state: `createFrameImages` (hence the A-buffer usage) runs exactly when
`imagesNeedReinit`, and `createDescriptorSets` (hence the binding type) runs
exactly when `descriptorSetsNeedReinit` (main.cpp lines 397-405). -/
def reconcileResources (smp0 : Sample) (forceRebuildAll : Bool)
    (res : GpuResources) : GpuResources :=
  let smp := reconcileInput smp0
  let res1 :=
    if imagesNeedReinit smp forceRebuildAll then
      { res with abufferUsage :=
          (createFrameImages smp.state smp.swapChainWidth smp.swapChainHeight).abuffer }
    else res
  if descriptorSetsNeedReinit smp forceRebuildAll then
    { res1 with abufferBinding := abufferBindingType smp.state }
  else res1

/-- The realized GPU resources reflect the applied configuration: the
A-buffer usage is exactly what `createFrameImages` chose for the applied
state and surface, and the binding type is what `createDescriptorSets` chose
for the applied state. -/
def resourcesConsistent (smp : Sample) (res : GpuResources) : Prop :=
  res.abufferUsage
      = (createFrameImages smp.lastState smp.lastSwapChainWidth
          smp.lastSwapChainHeight).abuffer
  ∧ res.abufferBinding = abufferBindingType smp.lastState

theorem imagesNeedReinit_false_iff (smp : Sample) (forceRebuildAll : Bool) :
    imagesNeedReinit smp forceRebuildAll = false ↔
      (smp.state.supersample = smp.lastState.supersample
       ∧ smp.state.msaa = smp.lastState.msaa
       ∧ smp.state.algorithm = smp.lastState.algorithm
       ∧ smp.state.sampleShading = smp.lastState.sampleShading
       ∧ smp.state.oitLayers = smp.lastState.oitLayers
       ∧ (smp.state.algorithm = OIT_LINKEDLIST →
           smp.state.linkedListAllocatedPerElement
             = smp.lastState.linkedListAllocatedPerElement)
       ∧ smp.swapChainWidth = smp.lastSwapChainWidth
       ∧ smp.swapChainHeight = smp.lastSwapChainHeight
       ∧ forceRebuildAll = false) := by
  simp only [imagesNeedReinit, swapchainSizeChanged, Bool.or_eq_false_iff,
    bne_eq_false_iff_eq, Bool.and_eq_false_iff, beq_eq_false_iff_ne, ne_eq]
  tauto

theorem descriptorSetsNeedReinit_false_iff (smp : Sample) (forceRebuildAll : Bool) :
    descriptorSetsNeedReinit smp forceRebuildAll = false ↔
      ((smp.state.algorithm = OIT_LOOP64 ↔ smp.lastState.algorithm = OIT_LOOP64)
       ∧ forceRebuildAll = false) := by
  simp only [descriptorSetsNeedReinit, Bool.or_eq_false_iff,
    Bool.and_eq_false_iff, beq_eq_false_iff_ne, bne_eq_false_iff_eq, ne_eq]
  tauto

theorem allocPlan_congr (st1 st2 : State)
    (halg : st1.algorithm = st2.algorithm)
    (hlay : st1.oitLayers = st2.oitLayers)
    (hll : st1.algorithm = OIT_LINKEDLIST →
      st1.linkedListAllocatedPerElement = st2.linkedListAllocatedPerElement)
    (hms : st1.msaa = st2.msaa)
    (hsh : st1.sampleShading = st2.sampleShading) :
    allocPlan st1 = allocPlan st2 := by
  have hcov : st1.coverageShading = st2.coverageShading := by
    simp [State.coverageShading, hms, hsh]
  unfold allocPlan
  rw [halg, hlay, hcov]
  split_ifs <;> try rfl
  all_goals {
    have h1LL : st1.algorithm = OIT_LINKEDLIST := by rw [halg]; assumption
    rw [hll h1LL]
  }

theorem createFrameImages_congr (st1 st2 : State) (w1 h1 w2 h2 : Nat)
    (halg : st1.algorithm = st2.algorithm)
    (hlay : st1.oitLayers = st2.oitLayers)
    (hll : st1.algorithm = OIT_LINKEDLIST →
      st1.linkedListAllocatedPerElement = st2.linkedListAllocatedPerElement)
    (hms : st1.msaa = st2.msaa)
    (hsh : st1.sampleShading = st2.sampleShading)
    (hsu : st1.supersample = st2.supersample)
    (hw : w1 = w2) (hh : h1 = h2) :
    createFrameImages st1 w1 h1 = createFrameImages st2 w2 h2 := by
  subst hw hh
  unfold createFrameImages
  rw [allocPlan_congr st1 st2 halg hlay hll hms hsh, halg, hms, hsh, hsu]

/-- C10: The A-buffer's creation-time usage always matches the descriptor
layout's IMG_ABUFFER binding type: (1) `createFrameImages` creates the
A-buffer with storage-buffer usage exactly when the algorithm is OIT_LOOP64
and with storage-texel-buffer usage otherwise, (2) `createDescriptorSets`
declares the binding as a storage buffer exactly when the algorithm is
OIT_LOOP64, (3) `descriptorSetsNeedReinit` is true on every transition into
or out of OIT_LOOP64 and `imagesNeedReinit` is true on every algorithm
change, (4) every reconciliation preserves the consistency of the realized
resources with the applied state, and (5) consistency implies the usage of a
created A-buffer equals the binding type. -/
theorem abuffer_usage_matches_binding :
    (∀ (st : State) (w h : Nat) (k : ABufferKind),
      (createFrameImages st w h).abuffer = some k →
        ((st.algorithm = OIT_LOOP64 → k = ABufferKind.storageBuffer)
          ∧ (st.algorithm ≠ OIT_LOOP64 → k = ABufferKind.storageTexelBuffer)))
    ∧ (∀ st : State,
        abufferBindingType st = ABufferKind.storageBuffer ↔ st.algorithm = OIT_LOOP64)
    ∧ (∀ (smp : Sample) (forceRebuildAll : Bool),
        ¬((reconcileInput smp).state.algorithm = OIT_LOOP64
            ↔ smp.lastState.algorithm = OIT_LOOP64) →
          descriptorSetsNeedReinit (reconcileInput smp) forceRebuildAll = true)
    ∧ (∀ (smp : Sample) (forceRebuildAll : Bool),
        (reconcileInput smp).state.algorithm ≠ smp.lastState.algorithm →
          imagesNeedReinit (reconcileInput smp) forceRebuildAll = true)
    ∧ (∀ (smp : Sample) (forceRebuildAll : Bool) (res : GpuResources),
        resourcesConsistent smp res →
          resourcesConsistent (updateRendererFromState smp forceRebuildAll).1
            (reconcileResources smp forceRebuildAll res))
    ∧ (∀ (smp : Sample) (res : GpuResources),
        resourcesConsistent smp res →
          ∀ k : ABufferKind, res.abufferUsage = some k → k = res.abufferBinding) := by
  have husage : ∀ (st : State) (w h : Nat) (k : ABufferKind),
      (createFrameImages st w h).abuffer = some k →
        ((st.algorithm = OIT_LOOP64 → k = ABufferKind.storageBuffer)
          ∧ (st.algorithm ≠ OIT_LOOP64 → k = ABufferKind.storageTexelBuffer)) := by
    intro st w h k hk
    simp only [createFrameImages] at hk
    by_cases h64 : st.algorithm = OIT_LOOP64 <;> simp [h64] at hk <;>
      simp [h64, ← hk.2]
  refine ⟨husage, ?_, ?_, ?_, ?_, ?_⟩
  · intro st
    unfold abufferBindingType
    split_ifs with h64 <;> simp [h64]
  · intro smp forceRebuildAll hmix
    simp only [descriptorSetsNeedReinit, Bool.or_eq_true, Bool.and_eq_true,
      beq_iff_eq, bne_iff_ne, ne_eq]
    tauto
  · intro smp forceRebuildAll halg
    simp only [imagesNeedReinit, Bool.or_eq_true, bne_iff_ne, ne_eq]
    tauto
  · intro smp forceRebuildAll res hcons
    obtain ⟨hu, hb⟩ := hcons
    have hlastpre : (reconcileInput smp).lastState = smp.lastState := rfl
    have husage2 : (reconcileResources smp forceRebuildAll res).abufferUsage
        = (createFrameImages (reconcileInput smp).state smp.swapChainWidth
            smp.swapChainHeight).abuffer := by
      unfold reconcileResources
      by_cases himg : imagesNeedReinit (reconcileInput smp) forceRebuildAll
      · by_cases hdesc : descriptorSetsNeedReinit (reconcileInput smp) forceRebuildAll <;>
          simp [himg, hdesc, reconcileInput_swapChainWidth,
            reconcileInput_swapChainHeight]
      · have hflat := (imagesNeedReinit_false_iff (reconcileInput smp) forceRebuildAll).mp
          (by simpa using himg)
        rw [hlastpre, reconcileInput_swapChainWidth, reconcileInput_swapChainHeight] at hflat
        obtain ⟨hsu, hms, halg, hsh, hlay, hllc, hwc, hhc, _⟩ := hflat
        have hcfi : createFrameImages smp.lastState smp.lastSwapChainWidth
              smp.lastSwapChainHeight
            = createFrameImages (reconcileInput smp).state smp.swapChainWidth
              smp.swapChainHeight := by
          refine createFrameImages_congr _ _ _ _ _ _ halg.symm hlay.symm ?_
            hms.symm hsh.symm hsu.symm hwc.symm hhc.symm
          intro hLL
          exact (hllc (halg.symm ▸ hLL)).symm
        by_cases hdesc : descriptorSetsNeedReinit (reconcileInput smp) forceRebuildAll <;>
          simp [himg, hdesc, hu, hcfi]
    have hbind2 : (reconcileResources smp forceRebuildAll res).abufferBinding
        = abufferBindingType (reconcileInput smp).state := by
      unfold reconcileResources
      by_cases hdesc : descriptorSetsNeedReinit (reconcileInput smp) forceRebuildAll
      · by_cases himg : imagesNeedReinit (reconcileInput smp) forceRebuildAll <;>
          simp [himg, hdesc]
      · have hflat := (descriptorSetsNeedReinit_false_iff (reconcileInput smp)
          forceRebuildAll).mp (by simpa using hdesc)
        rw [hlastpre] at hflat
        have hbt : abufferBindingType smp.lastState
            = abufferBindingType (reconcileInput smp).state := by
          unfold abufferBindingType
          by_cases h64a : (reconcileInput smp).state.algorithm = OIT_LOOP64 <;>
            by_cases h64b : smp.lastState.algorithm = OIT_LOOP64 <;>
            simp [h64a, h64b] <;> tauto
        by_cases himg : imagesNeedReinit (reconcileInput smp) forceRebuildAll <;>
          simp [himg, hdesc, hb, hbt]
    exact ⟨husage2, hbind2⟩
  · intro smp res hcons k hk
    obtain ⟨hu, hb⟩ := hcons
    rw [hu] at hk
    have h2 := husage smp.lastState smp.lastSwapChainWidth smp.lastSwapChainHeight k hk
    rw [hb]
    unfold abufferBindingType
    by_cases h64 : smp.lastState.algorithm = OIT_LOOP64
    · simp [h64, h2.1 h64]
    · simp [h64, h2.2 h64]

/-- Witness for C10's preservation component: a forced reconciliation from a
consistent concrete sample keeps the usage/binding consistency. -/
theorem abuffer_usage_matches_binding_witness :
    (let lst : State :=
      { algorithm := 3, oitLayers := 8, linkedListAllocatedPerElement := 10,
        percentTransparent := 100, tailBlend := true, numObjects := 1024,
        subdiv := 16, scaleMin := 1, scaleWidth := 9, aaType := 0,
        drawUI := true, msaa := 1, sampleShading := false, supersample := 1 }
     let smp : Sample :=
      { state := { lst with algorithm := 4 }, lastState := lst,
        swapChainWidth := 1200, swapChainHeight := 1024,
        lastSwapChainWidth := 1200, lastSwapChainHeight := 1024,
        vsync := false, lastVsync := false }
     let res : GpuResources :=
      { abufferUsage := some ABufferKind.storageBuffer,
        abufferBinding := ABufferKind.storageBuffer }
     resourcesConsistent (updateRendererFromState smp false).1
        (reconcileResources smp false res)) := by
  exact abuffer_usage_matches_binding.2.2.2.2.1 _ false _ ⟨by decide, by decide⟩

/-! C4. The spec's `shadersNeedUpdate` includes an interlock-ordering flag.
oitGui.cpp line 246 toggles `m_state.interlockIsOrdered` ("Interlock is
ordered", selecting `layout(..._interlock_ordered)` in the interlock
shaders), but the `State` struct in oit.h declares no such member and the
`shadersNeedUpdate` comparison in main.cpp lines 348-353 never compares
it. -/

/-- Modelled from the spec: the configuration as the spec and the GUI
(oitGui.cpp line 246) see it — the oit.h `State` is missing the
`interlockIsOrdered` member the GUI mutates, so it is carried alongside
here. -/
structure SpecStateWithInterlock where
  base : State
  interlockIsOrdered : Bool
deriving DecidableEq, Repr

/-- Modelled from the spec: "`shadersNeedUpdate`: algorithm, layer count,
tail-blend, interlock-ordering, msaa, or sample-shading changed" (or
forced). -/
def shadersNeedUpdateSpec (req app : SpecStateWithInterlock)
    (forceRebuildAll : Bool) : Bool :=
  (req.base.algorithm != app.base.algorithm)
  || (req.base.oitLayers != app.base.oitLayers)
  || (req.base.tailBlend != app.base.tailBlend)
  || (req.interlockIsOrdered != app.interlockIsOrdered)
  || (req.base.msaa != app.base.msaa)
  || (req.base.sampleShading != app.base.sampleShading)
  || forceRebuildAll

/-- A concrete interlock configuration for the C4 failing input. -/
def c4State : State :=
  { algorithm := 5, oitLayers := 8, linkedListAllocatedPerElement := 10,
    percentTransparent := 100, tailBlend := true, numObjects := 1024,
    subdiv := 16, scaleMin := 1, scaleWidth := 9, aaType := 0,
    drawUI := true, msaa := 1, sampleShading := false, supersample := 1 }

/-- C4: at the failing input — requested and applied configurations equal
except that the GUI's interlock-ordering flag was toggled — the spec's
`shadersNeedUpdate` is true, but the code's `shadersNeedUpdate` (which has no
interlock-ordering flag to compare, `State` lacking the member) is false: the
"Interlock is ordered" checkbox never triggers a shader rebuild. -/
theorem shadersNeedUpdate_ignores_interlock_ordering :
    shadersNeedUpdateSpec ⟨c4State, true⟩ ⟨c4State, false⟩ false = true
    ∧ shadersNeedUpdate
        { state := c4State, lastState := c4State,
          swapChainWidth := 1200, swapChainHeight := 1024,
          lastSwapChainWidth := 1200, lastSwapChainHeight := 1024,
          vsync := false, lastVsync := false } false = false := by
  decide

/-! Draw-call recording of `Sample::render` and `Sample::drawSceneObjects`
(oitRender.cpp lines 33-159) and the per-algorithm transparent draw
functions (oitRender.cpp lines 184-408).  The model records the indexed and
non-indexed draw calls added to the command buffer. -/

/-- 2^32: the C++ draw parameters are 32-bit. -/
def U32 : Nat := 2 ^ 32

inductive DrawCmd where
  | drawIndexed (indexCount instanceCount firstIndex : Nat)
  | draw (vertexCount : Nat)
deriving DecidableEq, Repr

/-- `Sample::drawSceneObjects` (oitRender.cpp lines 145-159): one
unconditional `vkCmdDrawIndexed(numObjects * m_objectTriangleIndices, 1,
firstObject * m_objectTriangleIndices, 0, 0)`. -/
def drawSceneObjects (objectTriangleIndices firstObject numObjects : Nat) :
    List DrawCmd :=
  [DrawCmd.drawIndexed (numObjects * objectTriangleIndices % U32) 1
    (firstObject * objectTriangleIndices % U32)]

/-- `Sample::drawTransparentSimple`: color pass over all transparent
objects, then a full-screen composite triangle. -/
def drawTransparentSimple (objectTriangleIndices numObjects : Nat) :
    List DrawCmd :=
  [DrawCmd.drawIndexed (numObjects * objectTriangleIndices % U32) 1 0,
   DrawCmd.draw 3]

/-- `Sample::drawTransparentLinkedList`: same draw shape as the simple
method. -/
def drawTransparentLinkedList (objectTriangleIndices numObjects : Nat) :
    List DrawCmd :=
  [DrawCmd.drawIndexed (numObjects * objectTriangleIndices % U32) 1 0,
   DrawCmd.draw 3]

/-- `Sample::drawTransparentLoop`: depth pass, color pass, composite. -/
def drawTransparentLoop (objectTriangleIndices numObjects : Nat) :
    List DrawCmd :=
  [DrawCmd.drawIndexed (numObjects * objectTriangleIndices % U32) 1 0,
   DrawCmd.drawIndexed (numObjects * objectTriangleIndices % U32) 1 0,
   DrawCmd.draw 3]

/-- `Sample::drawTransparentLoop64`: color pass, composite. -/
def drawTransparentLoop64 (objectTriangleIndices numObjects : Nat) :
    List DrawCmd :=
  [DrawCmd.drawIndexed (numObjects * objectTriangleIndices % U32) 1 0,
   DrawCmd.draw 3]

/-- `Sample::drawTransparentLock` (spinlock and interlock): color pass,
composite. -/
def drawTransparentLock (objectTriangleIndices numObjects : Nat) :
    List DrawCmd :=
  [DrawCmd.drawIndexed (numObjects * objectTriangleIndices % U32) 1 0,
   DrawCmd.draw 3]

/-- `Sample::drawTransparentWeighted`: color pass in subpass 0, composite in
subpass 1. -/
def drawTransparentWeighted (objectTriangleIndices numObjects : Nat) :
    List DrawCmd :=
  [DrawCmd.drawIndexed (numObjects * objectTriangleIndices % U32) 1 0,
   DrawCmd.draw 3]

/-- The transparent-object switch of `Sample::render` (oitRender.cpp lines
116-139). -/
def renderTransparentDraws (st : State) (objectTriangleIndices numTransparent : Nat) :
    List DrawCmd :=
  if st.algorithm = OIT_SIMPLE then
    drawTransparentSimple objectTriangleIndices numTransparent
  else if st.algorithm = OIT_LINKEDLIST then
    drawTransparentLinkedList objectTriangleIndices numTransparent
  else if st.algorithm = OIT_LOOP then
    drawTransparentLoop objectTriangleIndices numTransparent
  else if st.algorithm = OIT_LOOP64 then
    drawTransparentLoop64 objectTriangleIndices numTransparent
  else if st.algorithm = OIT_INTERLOCK ∨ st.algorithm = OIT_SPINLOCK then
    drawTransparentLock objectTriangleIndices numTransparent
  else if st.algorithm = OIT_WEIGHTED then
    drawTransparentWeighted objectTriangleIndices numTransparent
  else []

/-- `const int numObjects = m_sceneTriangleIndices / m_objectTriangleIndices`
(oitRender.cpp line 69). -/
def renderNumObjects (sceneTriangleIndices objectTriangleIndices : Nat) : Nat :=
  sceneTriangleIndices / objectTriangleIndices

/-- `int numTransparent = (numObjects * m_state.percentTransparent) / 100`,
clamped to `numObjects` (oitRender.cpp lines 70-74); the multiplication is
32-bit unsigned. -/
def renderNumTransparent (st : State) (numObjects : Nat) : Nat :=
  let nt := numObjects * st.percentTransparent % U32 / 100
  if nt > numObjects then numObjects else nt

/-- The draw calls `Sample::render` records (oitRender.cpp lines 33-143):
the opaque objects are drawn by `drawSceneObjects(cmd, numTransparent,
numOpaque)` — the suffix starting at index `numTransparent` — and then the
transparent prefix `[0, numTransparent)` by the selected algorithm. -/
def renderDraws (st : State) (sceneTriangleIndices objectTriangleIndices : Nat) :
    List DrawCmd :=
  let numObjects := renderNumObjects sceneTriangleIndices objectTriangleIndices
  let numTransparent := renderNumTransparent st numObjects
  let numOpaque := numObjects - numTransparent
  drawSceneObjects objectTriangleIndices numTransparent numOpaque
    ++ renderTransparentDraws st objectTriangleIndices numTransparent

/-- A concrete state for the C6 counterexample: the simple algorithm with
`percentTransparent = 100` (3 objects of 800 indices each, so the opaque
partition is empty). -/
def c6State : State :=
  { algorithm := 0, oitLayers := 8, linkedListAllocatedPerElement := 10,
    percentTransparent := 100, tailBlend := true, numObjects := 3,
    subdiv := 16, scaleMin := 1, scaleWidth := 9, aaType := 0,
    drawUI := true, msaa := 1, sampleShading := false, supersample := 1 }

/-- C6 counterexample: with `percentTransparent = 100` the opaque partition
is empty, yet `render` still records the opaque indexed draw — with index
count 0 and first index 2400 — rather than skipping the draw call. -/
theorem render_zero_opaque_draw_recorded :
    DrawCmd.drawIndexed 0 1 2400 ∈ renderDraws c6State 2400 800 := by
  decide

/-- C6 (amended): when either partition is empty the corresponding indexed
draw is still recorded, with index count 0 (a no-op draw under Vulkan),
rather than skipped: an empty opaque partition leaves the opaque
`vkCmdDrawIndexed` at the head of the trace with index count 0, and an empty
transparent partition records a transparent `vkCmdDrawIndexed` with index
count 0 and first index 0. -/
theorem render_empty_partition_records_noop_draw (st : State)
    (sceneTriangleIndices objectTriangleIndices : Nat)
    (halg : st.algorithm < NUM_ALGORITHMS) :
    ((renderNumObjects sceneTriangleIndices objectTriangleIndices
        - renderNumTransparent st (renderNumObjects sceneTriangleIndices objectTriangleIndices) = 0) →
      (renderDraws st sceneTriangleIndices objectTriangleIndices).head?
        = some (DrawCmd.drawIndexed 0 1
            (renderNumTransparent st (renderNumObjects sceneTriangleIndices objectTriangleIndices)
              * objectTriangleIndices % U32)))
    ∧ (renderNumTransparent st (renderNumObjects sceneTriangleIndices objectTriangleIndices) = 0 →
        DrawCmd.drawIndexed 0 1 0 ∈ renderDraws st sceneTriangleIndices objectTriangleIndices) := by
  constructor
  · intro h0
    simp [renderDraws, drawSceneObjects, h0, Nat.zero_mod]
  · intro hT
    have hmem : DrawCmd.drawIndexed 0 1 0
        ∈ renderTransparentDraws st objectTriangleIndices 0 := by
      unfold renderTransparentDraws drawTransparentSimple drawTransparentLinkedList
        drawTransparentLoop drawTransparentLoop64 drawTransparentLock
        drawTransparentWeighted
      split_ifs <;>
        simp_all [OIT_SIMPLE, OIT_LINKEDLIST, OIT_LOOP, OIT_LOOP64,
          OIT_SPINLOCK, OIT_INTERLOCK, OIT_WEIGHTED, NUM_ALGORITHMS,
          Nat.zero_mod] <;>
        omega
    simp only [renderDraws, hT]
    exact List.mem_append_right _ hmem

/-- Witness for the amended C6 at a concrete weighted-algorithm scene with an
empty opaque partition. -/
theorem render_empty_partition_records_noop_draw_witness :
    (let st : State := { c6State with algorithm := 6 }
     st.algorithm < NUM_ALGORITHMS ∧
      ((renderNumObjects 2400 800
          - renderNumTransparent st (renderNumObjects 2400 800) = 0) →
        (renderDraws st 2400 800).head?
          = some (DrawCmd.drawIndexed 0 1
              (renderNumTransparent st (renderNumObjects 2400 800) * 800 % U32)))
      ∧ (renderNumTransparent st (renderNumObjects 2400 800) = 0 →
          DrawCmd.drawIndexed 0 1 0 ∈ renderDraws st 2400 800)) :=
  ⟨by decide,
   render_empty_partition_records_noop_draw { c6State with algorithm := 6 }
    2400 800 (by decide)⟩

/-- C7: Object partitioning is deterministic by index, not content: `render`
computes `numTransparent = floor(numObjects * percentTransparent / 100)`
(with `percentTransparent ≤ 100` the clamp never fires), records the opaque
draw over the index suffix starting at `numTransparent * objectTriangleIndices`
with `numOpaque * objectTriangleIndices` indices, draws the transparent
objects as the contiguous prefix (every transparent indexed draw has first
index 0), and in particular 1024 objects at 30 percent give 307 transparent
and 717 opaque objects. -/
theorem render_partition_deterministic (st : State)
    (sceneTriangleIndices objectTriangleIndices : Nat)
    (hp : st.percentTransparent ≤ 100)
    (hobj : 0 < objectTriangleIndices)
    (hsize : sceneTriangleIndices * 100 < U32) :
    renderNumTransparent st (renderNumObjects sceneTriangleIndices objectTriangleIndices)
        = renderNumObjects sceneTriangleIndices objectTriangleIndices
            * st.percentTransparent / 100
    ∧ renderDraws st sceneTriangleIndices objectTriangleIndices
        = DrawCmd.drawIndexed
            ((renderNumObjects sceneTriangleIndices objectTriangleIndices
                - renderNumTransparent st
                    (renderNumObjects sceneTriangleIndices objectTriangleIndices))
              * objectTriangleIndices)
            1
            (renderNumTransparent st
                (renderNumObjects sceneTriangleIndices objectTriangleIndices)
              * objectTriangleIndices)
          :: renderTransparentDraws st objectTriangleIndices
              (renderNumTransparent st
                (renderNumObjects sceneTriangleIndices objectTriangleIndices))
    ∧ (∀ ic n fi, DrawCmd.drawIndexed ic n fi
          ∈ renderTransparentDraws st objectTriangleIndices
              (renderNumTransparent st
                (renderNumObjects sceneTriangleIndices objectTriangleIndices)) →
        fi = 0)
    ∧ (renderNumObjects sceneTriangleIndices objectTriangleIndices = 1024 →
        st.percentTransparent = 30 →
        renderNumTransparent st
            (renderNumObjects sceneTriangleIndices objectTriangleIndices) = 307
        ∧ renderNumObjects sceneTriangleIndices objectTriangleIndices
            - renderNumTransparent st
                (renderNumObjects sceneTriangleIndices objectTriangleIndices) = 717) := by
  have hNle : renderNumObjects sceneTriangleIndices objectTriangleIndices
      ≤ sceneTriangleIndices := Nat.div_le_self _ _
  have hmod : renderNumObjects sceneTriangleIndices objectTriangleIndices
        * st.percentTransparent % U32
      = renderNumObjects sceneTriangleIndices objectTriangleIndices
        * st.percentTransparent :=
    Nat.mod_eq_of_lt (lt_of_le_of_lt (Nat.mul_le_mul hNle hp) hsize)
  have hle : renderNumObjects sceneTriangleIndices objectTriangleIndices
        * st.percentTransparent / 100
      ≤ renderNumObjects sceneTriangleIndices objectTriangleIndices := by
    calc renderNumObjects sceneTriangleIndices objectTriangleIndices
          * st.percentTransparent / 100
        ≤ renderNumObjects sceneTriangleIndices objectTriangleIndices * 100 / 100 :=
          Nat.div_le_div_right (Nat.mul_le_mul_left _ hp)
      _ = renderNumObjects sceneTriangleIndices objectTriangleIndices :=
          Nat.mul_div_cancel _ (by norm_num)
  have h1 : renderNumTransparent st
      (renderNumObjects sceneTriangleIndices objectTriangleIndices)
      = renderNumObjects sceneTriangleIndices objectTriangleIndices
        * st.percentTransparent / 100 := by
    unfold renderNumTransparent
    rw [hmod]
    exact if_neg (by omega)
  have hsc : sceneTriangleIndices < U32 :=
    lt_of_le_of_lt (Nat.le_mul_of_pos_right _ (by norm_num)) hsize
  have hNobj : renderNumObjects sceneTriangleIndices objectTriangleIndices
      * objectTriangleIndices ≤ sceneTriangleIndices := Nat.div_mul_le_self _ _
  have hnT : renderNumTransparent st
      (renderNumObjects sceneTriangleIndices objectTriangleIndices)
      ≤ renderNumObjects sceneTriangleIndices objectTriangleIndices := by
    rw [h1]; exact hle
  have hmodT : renderNumTransparent st
        (renderNumObjects sceneTriangleIndices objectTriangleIndices)
        * objectTriangleIndices % U32
      = renderNumTransparent st
        (renderNumObjects sceneTriangleIndices objectTriangleIndices)
        * objectTriangleIndices :=
    Nat.mod_eq_of_lt (lt_of_le_of_lt
      (le_trans (Nat.mul_le_mul_right _ hnT) hNobj) hsc)
  have hmodO : (renderNumObjects sceneTriangleIndices objectTriangleIndices
        - renderNumTransparent st
            (renderNumObjects sceneTriangleIndices objectTriangleIndices))
        * objectTriangleIndices % U32
      = (renderNumObjects sceneTriangleIndices objectTriangleIndices
        - renderNumTransparent st
            (renderNumObjects sceneTriangleIndices objectTriangleIndices))
        * objectTriangleIndices :=
    Nat.mod_eq_of_lt (lt_of_le_of_lt
      (le_trans (Nat.mul_le_mul_right _ (Nat.sub_le _ _)) hNobj) hsc)
  refine ⟨h1, ?_, ?_, ?_⟩
  · simp only [renderDraws, drawSceneObjects, List.cons_append, List.nil_append]
    rw [hmodT, hmodO]
  · intro ic n fi hmem
    unfold renderTransparentDraws drawTransparentSimple drawTransparentLinkedList
      drawTransparentLoop drawTransparentLoop64 drawTransparentLock
      drawTransparentWeighted at hmem
    split_ifs at hmem <;> simp_all
  · intro hN h30
    rw [h1, hN, h30]
    norm_num

/-- A concrete state for the C7 witness: spinlock, 30 percent transparent,
1024 objects. -/
def c7State : State :=
  { c6State with algorithm := 4, percentTransparent := 30, numObjects := 1024 }

/-- Witness for C7: 1024 objects of 800 indices each at 30 percent
transparency give 307 transparent and 717 opaque objects. -/
theorem render_partition_deterministic_witness :
    (let st : State := c7State
     st.percentTransparent ≤ 100 ∧
      (renderNumTransparent st (renderNumObjects 819200 800)
          = renderNumObjects 819200 800 * st.percentTransparent / 100
        ∧ renderDraws st 819200 800
            = DrawCmd.drawIndexed
                ((renderNumObjects 819200 800
                    - renderNumTransparent st (renderNumObjects 819200 800)) * 800)
                1
                (renderNumTransparent st (renderNumObjects 819200 800) * 800)
              :: renderTransparentDraws st 800
                  (renderNumTransparent st (renderNumObjects 819200 800))
        ∧ (∀ ic n fi, DrawCmd.drawIndexed ic n fi
              ∈ renderTransparentDraws st 800
                  (renderNumTransparent st (renderNumObjects 819200 800)) →
            fi = 0)
        ∧ (renderNumObjects 819200 800 = 1024 →
            st.percentTransparent = 30 →
            renderNumTransparent st (renderNumObjects 819200 800) = 307
            ∧ renderNumObjects 819200 800
                - renderNumTransparent st (renderNumObjects 819200 800) = 717))) :=
  ⟨by decide,
   render_partition_deterministic c7State 819200 800 (by decide) (by decide)
    (by decide)⟩

end VkOit
